import Mathlib

/-!
Shallow embedding of the voice-driven recipe/health demo scripts
(`src/backend/recipe_generator.py`, `buffer.py`, `rohan.py`,
`health_report.py`) and proofs about their parsing, conversation-loop,
and error-handling behaviour.

Python string primitives (`split`, `strip`, `lower`, `upper`, `replace`,
`startswith`, `in`, slicing) are re-implemented below by structural
recursion over the character list of a Lean `String`, so that every
definition evaluates inside the kernel; ASCII inputs are assumed (Python
additionally handles non-ASCII Unicode case folding and whitespace,
which none of the parsed label formats use).  External collaborators
(the JSON decoder, the regex engine, the Gemini model, the TTS engine,
file upload, the HTTP stack) are modelled as oracle parameters: pure
functions or `Except`/sum values describing the outcome the collaborator
produced.
-/

namespace SmartChef

/-- The whitespace characters stripped by Python's `str.strip()`
(ASCII fragment). -/
def isPyWhitespace (c : Char) : Bool :=
  c = ' ' || c = '\t' || c = '\n' || c = '\r' || c = '\x0b' || c = '\x0c'

/-- Python's `s.strip()`: drop leading and trailing whitespace. -/
def pyStrip (s : String) : String :=
  String.mk (((s.data.dropWhile isPyWhitespace).reverse.dropWhile
    isPyWhitespace).reverse)

/-- Python's `s.lower()` (ASCII). -/
def pyLower (s : String) : String :=
  String.mk (s.data.map Char.toLower)

/-- Python's `s.upper()` (ASCII). -/
def pyUpper (s : String) : String :=
  String.mk (s.data.map Char.toUpper)

/-- Python's `s.startswith(pre)`. -/
def pyStartsWith (s pre : String) : Bool :=
  pre.data.isPrefixOf s.data

/-- Worker for `pySplit`: `cur` is the piece accumulated since the last
separator; the fuel argument (always at least the length of the text
remaining) makes the recursion structural. -/
def pySplitAux (sep : List Char) : Nat → List Char → List Char →
    List (List Char)
  | 0, cur, rest => [cur ++ rest]
  | _ + 1, cur, [] => [cur]
  | n + 1, cur, c :: cs =>
    if sep.isPrefixOf (c :: cs) then
      cur :: pySplitAux sep n [] (List.drop (sep.length - 1) cs)
    else
      pySplitAux sep n (cur ++ [c]) cs

/-- Python's `s.split(sep)` for a nonempty literal separator: split at
every non-overlapping occurrence, keeping empty pieces. -/
def pySplit (s sep : String) : List String :=
  (pySplitAux sep.data (s.data.length + 1) [] s.data).map String.mk

/-- Join a list of strings with a separator (Python's `sep.join`). -/
def joinWith (sep : String) : List String → String
  | [] => ""
  | [a] => a
  | a :: rest => a ++ sep ++ joinWith sep rest

/-- Python's `s.replace(old, new)` for a nonempty `old`:
`new.join(s.split(old))`. -/
def pyReplace (s old new : String) : String :=
  joinWith new (pySplit s old)

/-- Python's `sub in s` for a nonempty literal `sub`: the split at `sub`
has at least two pieces exactly when `sub` occurs in `s`. -/
def pyContains (s sub : String) : Bool :=
  (pySplit s sub).length > 1

/-- Python's `s.split(sep, 1)`: split only at the first occurrence. -/
def splitLimit1 (s sep : String) : List String :=
  match pySplit s sep with
  | [] => []
  | [a] => [a]
  | a :: rest => [a, joinWith sep rest]

/-- Python's `s.split(sep, 1)[1]` (callers only use it when `sep` occurs,
so the default is never reached there). -/
def splitGet1 (s sep : String) : String :=
  (splitLimit1 s sep).getD 1 ""

/-- Python's `s.find(c)`: lowest index of `c` in `s`, or `-1`. -/
def str_find (s : String) (c : Char) : Int :=
  match s.data.indexOf? c with
  | some i => (i : Int)
  | none => -1

/-- Python's `s.rfind(c)`: highest index of `c` in `s`, or `-1`. -/
def str_rfind (s : String) (c : Char) : Int :=
  match s.data.reverse.indexOf? c with
  | some i => ((s.data.length - 1 - i : Nat) : Int)
  | none => -1

/-- Python's `s[a:b]` for non-negative bounds. -/
def pySlice (s : String) (a b : Int) : String :=
  String.mk ((s.data.drop a.toNat).take (b.toNat - a.toNat))

/-- Python's `s[n:]` for a non-negative literal `n`. -/
def pyDropChars (s : String) (n : Nat) : String :=
  String.mk (s.data.drop n)

/-- `VOICE_MAP` from `recipe_generator.py` lines 22-30: static table from
two-letter language code to Edge-TTS voice name. -/
def VOICE_MAP : List (String × String) :=
  [ ("hi", "hi-IN-SwaraNeural"),
    ("te", "te-IN-MohanNeural"),
    ("ta", "ta-IN-PallaviNeural"),
    ("kn", "kn-IN-GaganNeural"),
    ("bn", "bn-IN-TanishaaNeural"),
    ("ml", "ml-IN-SobhanaNeural"),
    ("en", "en-IN-NeerjaNeural") ]

/-- Voice selection in `speak` (`recipe_generator.py` lines 95 and 108):
`VOICE_MAP.get(lang_code, "en-IN-NeerjaNeural")`. -/
def speak_voice (lang_code : String) : String :=
  (VOICE_MAP.lookup lang_code).getD "en-IN-NeerjaNeural"

/-- Voice selection in `process_ingredients_batch`
(`recipe_generator.py` line 603): the same `.get` with the same default. -/
def batch_voice (lang_code : String) : String :=
  (VOICE_MAP.lookup lang_code).getD "en-IN-NeerjaNeural"

/-- One iteration of the line loop of `parse_lang_and_options`
(`recipe_generator.py` lines 170-174): a line containing `"LANG:"`
replaces the language code with `line.split(":", 1)[1].strip().lower()`,
a line containing `"OPTIONS:"` replaces the question with
`line.split(":", 1)[1].strip()`; the two tests are independent. -/
def langOptionsStep (acc : String × String) (line : String) :
    String × String :=
  let acc1 :=
    if pyContains line "LANG:" then
      (pyLower (pyStrip (splitGet1 line ":")), acc.2)
    else acc
  if pyContains line "OPTIONS:" then (acc1.1, pyStrip (splitGet1 line ":"))
  else acc1

/-- `parse_lang_and_options` (`recipe_generator.py` lines 166-176): start
from `("en", response_text)` and scan every line. -/
def parse_lang_and_options (response_text : String) : String × String :=
  (pySplit response_text "\n").foldl langOptionsStep ("en", response_text)

/-- `parse_steps` (`recipe_generator.py` lines 202-224): keep lines that
(after stripping) start with `step` case-insensitively, and take the text
after the first `:` (or, failing that, after the first `-`). -/
def parse_steps (steps_text : String) : List String :=
  (pySplit steps_text "\n").foldl
    (fun steps rawLine =>
      let line := pyStrip rawLine
      if line = "" then steps
      else if pyStartsWith (pyLower line) "step" then
        let parts := splitLimit1 line ":"
        if parts.length = 2 then steps ++ [pyStrip (parts.getD 1 "")]
        else
          let parts2 := splitLimit1 line "-"
          if parts2.length = 2 then steps ++ [pyStrip (parts2.getD 1 "")]
          else steps
      else steps)
    []

/-- `get_user_step_command` (`recipe_generator.py` lines 227-282), with
the file upload and the Gemini call abstracted as outcome parameters:
an upload failure returns `"NEXT"`; a model-call failure returns
`"NEXT"`; otherwise the model text is stripped, upper-cased and
classified by substring match, `"REPEAT"` tested before `"STOP"`,
defaulting to `"NEXT"`. -/
def get_user_step_command (upload : Except String Unit)
    (modelResult : Except String String) : String :=
  match upload with
  | .error _ => "NEXT"
  | .ok _ =>
    match modelResult with
    | .error _ => "NEXT"
    | .ok text =>
      let command_raw := pyUpper (pyStrip text)
      if pyContains command_raw "REPEAT" then "REPEAT"
      else if pyContains command_raw "STOP" then "STOP"
      else "NEXT"

/-- The branch structure of the `while` body in `main`
(`recipe_generator.py` lines 528-538): `some i` means the loop continues
with index `i`, `none` means the loop breaks.  `"NEXT"` increments,
`"REPEAT"` keeps the index (the `continue`), `"STOP"` breaks, and the
fall-through `else` also increments. -/
def loopBody (step_index : Nat) (command : String) : Option Nat :=
  if command = "NEXT" then some (step_index + 1)
  else if command = "REPEAT" then some step_index
  else if command = "STOP" then none
  else some (step_index + 1)

/-- The interactive step loop of `main` (`recipe_generator.py` lines
518-538), driven by the finite list of classified commands the model
returns on successive iterations.  Each iteration whose index is in range
emits `(step_index, steps[step_index])` — the `print`/`speak` of the
current step — then applies `loopBody` to the next command.  The trace is
truncated (after the emission) when the supplied command list runs out. -/
def runLoop (steps : List String) (step_index : Nat) :
    List String → List (Nat × String)
  | [] =>
    if h : step_index < steps.length then [(step_index, steps[step_index])]
    else []
  | command :: rest =>
    if h : step_index < steps.length then
      (step_index, steps[step_index]) ::
        (match loopBody step_index command with
         | some idx2 => runLoop steps idx2 rest
         | none => [])
    else []

/-- Outcome of the tail of `main` after the step-list model call
(`recipe_generator.py` lines 498-540). -/
inductive DriverOutcome where
  | earlyExit (msg : String)
  | interactive (trace : List (Nat × String))
  deriving Repr, DecidableEq

/-- `main` from the `steps = parse_steps(steps_text)` line onwards
(`recipe_generator.py` lines 498-540): with zero parsed steps it prints
an explanatory message and returns before the interactive mode;
otherwise it enters the step loop (the intro sentence and `speak` calls
are pure I/O and not part of the control state). -/
def main_after_steps (steps_text : String) (commands : List String) :
    DriverOutcome :=
  let steps := parse_steps steps_text
  if steps.isEmpty then
    .earlyExit "Could not parse steps. Using full recipe only."
  else
    .interactive (runLoop steps 0 commands)

/-- Outcome of the single `model.generate_content` call in
`process_ingredients_batch` (`recipe_generator.py` lines 583-590):
`ResourceExhausted`, some other exception, or a response whose `.text`
attribute is `getattr(gen_result, "text", "") or ""` (modelled as
`Option String`, `none` for an absent/None attribute). -/
inductive GenOutcome where
  | resourceExhausted (msg : String)
  | genError (msg : String)
  | ok (text : Option String)

/-- The result dictionary of `process_ingredients_batch`
(`recipe_generator.py` line 559); `tts_error` is `none` when the key is
absent (it is only ever added by `setdefault` on a TTS failure). -/
structure BatchResult where
  success : Bool
  error : Option String
  response_text : String
  lang_code : String
  ai_question : String
  tts_files : List String
  tts_error : Option String
  deriving Repr, DecidableEq

/-- The initial `result` dictionary (`recipe_generator.py` line 559). -/
def batchInit : BatchResult :=
  { success := false, error := none, response_text := "", lang_code := "en",
    ai_question := "", tts_files := [], tts_error := none }

/-- `process_ingredients_batch` (`recipe_generator.py` lines 543-613)
with its collaborators abstracted: `fileExists` is the `os.path.exists`
check, `upload` the `genai.upload_file` outcome, `gen` the outcome of
the single model call, `tts` the outcome of `communicate.save`, and
`ttsFilename` the generated `tts_{uuid4().hex}.mp3` name.  The second
component counts how many times `model.generate_content` was invoked. -/
def process_ingredients_batch (ingredients_wav_path : String)
    (fileExists : Bool) (upload : Except String Unit) (gen : GenOutcome)
    (tts : Except String Unit) (ttsFilename : String) : BatchResult × Nat :=
  if !fileExists then
    ({ batchInit with
        error := some ("Ingredients file not found: " ++ ingredients_wav_path) },
     0)
  else
    match upload with
    | .error e =>
      ({ batchInit with
          error := some ("Upload ingredients file failed: " ++ e) }, 0)
    | .ok _ =>
      match gen with
      | .resourceExhausted e =>
        ({ batchInit with error := some ("Gemini quota exhausted: " ++ e) }, 1)
      | .genError e =>
        ({ batchInit with error := some ("Gemini generation failed: " ++ e) }, 1)
      | .ok text =>
        let response_text := pyStrip (text.getD "")
        let parsed := parse_lang_and_options response_text
        let base := { batchInit with
            response_text := response_text,
            lang_code := parsed.1, ai_question := parsed.2 }
        if parsed.2 ≠ "" then
          match tts with
          | .ok _ =>
            ({ base with tts_files := [ttsFilename], success := true }, 1)
          | .error e =>
            ({ base with tts_error := some e, success := true }, 1)
        else
          ({ base with success := true }, 1)

/-- One outbound HTTP request: its URL and the `timeout=` argument passed
to `requests` (`none` when the call has no timeout argument). -/
structure HttpRequest where
  url : String
  timeout : Option Nat
  deriving Repr, DecidableEq

/-- The outbound requests issued by one call of `generate_image` in
`recipe_generator.py` (lines 126-161): a single `requests.get(url,
stream=True)` with NO timeout argument, on the Pollinations URL built
with `requests.utils.quote` (the URL-quoting is the `quote` oracle). -/
def recipe_generate_image_requests (quote : String → String)
    (prompt : String) : List HttpRequest :=
  [⟨"https://image.pollinations.ai/prompt/" ++ quote prompt, none⟩]

/-- The outbound requests issued by one call of `generate_image` in
`buffer.py` (lines 84-104): a single `requests.get(url, timeout=10)` on
the Pollinations URL built with `prompt.replace(" ", "%20")`. -/
def buffer_generate_image_requests (prompt : String) : List HttpRequest :=
  [⟨"https://image.pollinations.ai/prompt/" ++ pyReplace prompt " " "%20",
    some 10⟩]

/-- The outbound requests issued by one call of `generate_image` in
`rohan.py` (lines 72-85): a single `requests.get(url, timeout=10)` on
the Pollinations URL built with `prompt.replace(" ", "%20")`. -/
def rohan_generate_image_requests (prompt : String) : List HttpRequest :=
  [⟨"https://image.pollinations.ai/prompt/" ++ pyReplace prompt " " "%20",
    some 10⟩]

/-- A static `requests.*` call site in the repository. -/
structure RequestSite where
  file : String
  func : String
  /-- the request goes to `http://localhost:...` -/
  isLocal : Bool
  /-- the request fetches a generated image from Pollinations -/
  isImageFetch : Bool
  /-- the `timeout=` argument at that call site, `none` when absent -/
  timeout : Option Nat
  deriving Repr, DecidableEq

/-- Every `requests.get`/`requests.post` call site in the repository
(`grep` over `src/backend`): the three Pollinations image fetches, the
Ollama chat call of `LocalHealthReportAnalyzer.analyze`
(`health_report.py` line 278, `timeout=900`), and the Ollama status
probe `check_ollama_status` (`health_report.py` line 348, `timeout=5`). -/
def requestSites : List RequestSite :=
  [ ⟨"buffer.py", "generate_image", false, true, some 10⟩,
    ⟨"rohan.py", "generate_image", false, true, some 10⟩,
    ⟨"recipe_generator.py", "generate_image", false, true, none⟩,
    ⟨"health_report.py", "analyze", true, false, some 900⟩,
    ⟨"health_report.py", "check_ollama_status", true, false, some 5⟩ ]

/-- `extract_json` (`rohan.py` lines 19-34), with the JSON decoder as the
oracle `loads` (`none` models `json.loads` raising, which the enclosing
`except Exception` turns into `None`; the pure string work before it
never raises).  The `re.sub` patterns are literal, so they are plain
replace-alls.  Note `end = text.rfind('}') + 1` is `0`, never `-1`, when
`'}'` is absent, so the guard only really checks `start != -1`; the
slice is then empty and `loads` fails on it. -/
def extract_json {J : Type} (loads : String → Option J) (text : String) :
    Option J :=
  let t := pyReplace (pyReplace text "```json" "") "```" ""
  let start := str_find t '{'
  let stop := str_rfind t '}' + 1
  if start ≠ -1 ∧ stop ≠ -1 then loads (pySlice t start stop)
  else none

/-- One day of the fallback diet plan
(`health_report.py` lines 100-121). -/
structure HealthDay where
  breakfast : String
  lunch : String
  dinner : String
  snacks : String
  deriving Repr, DecidableEq

/-- The dictionary built by `LocalHealthReportAnalyzer._parse_text_to_json`
(`health_report.py` lines 58-130): extracted test values, abnormality
explanations, a fixed explanation sentence, the per-day diet plan, and a
disclaimer. -/
structure HealthReportDict where
  extracted_values : List (String × String × String)
  abnormalities : List (String × String)
  explanation : String
  diet_plan_1_week : List (String × HealthDay)
  disclaimer : String
  deriving Repr, DecidableEq

/-- The `re` collaborator of `_parse_text_to_json`, abstracted: each
field is the match list / match of one of the fixed patterns of
`health_report.py` lines 72-124 on the given text.  All of these are
total in Python (`re.finditer` / `re.search` never raise on a string). -/
structure RegexOracle where
  /-- `finditer` of the test pattern: (name, value, status) groups. -/
  testMatches : String → List (String × String × String)
  /-- `search` for the abnormality section, group 1. -/
  abnSection : String → Option String
  /-- `finditer` of the abnormality pattern: (name, explanation) groups. -/
  abnMatches : String → List (String × String)
  /-- `finditer` of the day pattern: (day number, day content) groups. -/
  dayMatches : String → List (String × String)
  /-- `search` for `"<label>: ..."` inside a day's content, group 1. -/
  mealSearch : String → String → Option String
  /-- `search` for the disclaimer tail, group 1. -/
  disclaimerSection : String → Option String

/-- `_parse_text_to_json` (`health_report.py` lines 58-130): a total
function of the raw text (given the regex oracle) — every branch fills a
field of the fixed result skeleton, nothing raises. -/
def parse_text_to_json (o : RegexOracle) (raw_text : String) :
    HealthReportDict :=
  { extracted_values :=
      (o.testMatches raw_text).map
        (fun m => (pyStrip m.1, pyStrip m.2.1, pyStrip m.2.2)),
    abnormalities :=
      match o.abnSection raw_text with
      | some sec => (o.abnMatches sec).map
          (fun m => (pyStrip m.1, pyStrip m.2))
      | none => [],
    explanation :=
      "The blood report shows several values outside normal ranges that require attention and dietary modifications.",
    diet_plan_1_week :=
      (o.dayMatches raw_text).map (fun m =>
        ("day" ++ m.1,
         { breakfast := ((o.mealSearch "Breakfast" m.2).map pyStrip).getD "",
           lunch := ((o.mealSearch "Lunch" m.2).map pyStrip).getD "",
           dinner := ((o.mealSearch "Dinner" m.2).map pyStrip).getD "",
           snacks := ((o.mealSearch "Snacks" m.2).map pyStrip).getD "" })),
    disclaimer :=
      match o.disclaimerSection raw_text with
      | some d => pyStrip d
      | none =>
        "This is not medical advice. Consult a licensed healthcare professional." }

/-- `_clean_json_response` (`health_report.py` lines 132-144): strip,
peel a leading markdown fence when a closing fence exists, drop a `json`
tag, strip again. -/
def clean_json_response (raw_text : String) : String :=
  let r0 := pyStrip raw_text
  let r1 :=
    if pyStartsWith r0 "```" then
      let parts := pySplit r0 "```"
      if parts.length ≥ 3 then
        let p := parts.getD 1 ""
        if pyStartsWith p "json" then pyStrip (pyDropChars p 4) else p
      else r0
    else r0
  pyStrip r1

/-- Outcome of the response-parsing tail of
`LocalHealthReportAnalyzer.analyze` (`health_report.py` lines 316-342):
strict JSON parse, text-format fallback, or the `RuntimeError` raised to
the caller when both fail. -/
inductive AnalyzeOutcome (J : Type) where
  | parsed (j : J)
  | fallback (r : HealthReportDict)
  | raised (msg : String)

/-- The parse cascade of `analyze` (`health_report.py` lines 316-342):
clean the raw text and try a strict decode; on `JSONDecodeError` fall
back to `_parse_text_to_json` on the raw text.  The source wraps the
fallback in `try/except` and raises `RuntimeError` when the fallback
itself throws; `_parse_text_to_json` is total, so that branch is
unreachable and the embedding never produces `AnalyzeOutcome.raised`. -/
def analyze_parse {J : Type} (loads : String → Option J) (o : RegexOracle)
    (raw_text : String) : AnalyzeOutcome J :=
  match loads (clean_json_response raw_text) with
  | some parsed_json => .parsed parsed_json
  | none => .fallback (parse_text_to_json o raw_text)

/-- A `RegexOracle` whose every pattern fails to match (used to
instantiate oracle-parameterised theorems at a concrete input). -/
def emptyRegexOracle : RegexOracle :=
  ⟨fun _ => [], fun _ => none, fun _ => [], fun _ => [], fun _ _ => none,
   fun _ => none⟩

/-- An association list lookup on a key that is not among the keys
returns `none`. -/
theorem lookup_eq_none_of_not_mem {l : List (String × String)} {k : String}
    (h : k ∉ l.map Prod.fst) : l.lookup k = none := by
  induction l with
  | nil => rfl
  | cons p rest ih =>
    simp only [List.map_cons, List.mem_cons, not_or] at h
    obtain ⟨h1, h2⟩ := h
    have hb : (k == p.1) = false := beq_eq_false_iff_ne.mpr h1
    cases p with
    | mk a b => simp only [List.lookup] at *; rw [hb]; exact ih h2

/-- C5: on `"LANG: hi\nOPTIONS: Paneer or Dal?"` the parser returns
language `"hi"` and question `"Paneer or Dal?"`; label lines are
recognised in either order (a `LANG:`-only line and an `OPTIONS:`-only
line commute through the line scanner); and an input none of whose lines
contains a label keeps the default language `"en"` with the whole input
as the question. -/
theorem C5_parse_lang_and_options :
    parse_lang_and_options "LANG: hi\nOPTIONS: Paneer or Dal?"
        = ("hi", "Paneer or Dal?")
    ∧ parse_lang_and_options "OPTIONS: Paneer or Dal?\nLANG: hi"
        = ("hi", "Paneer or Dal?")
    ∧ (∀ l1 l2 acc, pyContains l1 "LANG:" = true →
        pyContains l1 "OPTIONS:" = false →
        pyContains l2 "OPTIONS:" = true →
        pyContains l2 "LANG:" = false →
        langOptionsStep (langOptionsStep acc l1) l2
          = langOptionsStep (langOptionsStep acc l2) l1)
    ∧ (∀ text, (∀ line ∈ pySplit text "\n",
          pyContains line "LANG:" = false
          ∧ pyContains line "OPTIONS:" = false) →
        parse_lang_and_options text = ("en", text)) := by
  refine ⟨by decide, by decide, ?_, ?_⟩
  · intro l1 l2 acc h1 h1o h2o h2l
    simp [langOptionsStep, h1, h1o, h2o, h2l]
  · intro text h
    have key : ∀ (lines : List String) (acc : String × String),
        (∀ line ∈ lines, pyContains line "LANG:" = false
          ∧ pyContains line "OPTIONS:" = false) →
        lines.foldl langOptionsStep acc = acc := by
      intro lines
      induction lines with
      | nil => intro acc _; rfl
      | cons l rest ih =>
        intro acc hall
        have hl := hall l (List.mem_cons_self l rest)
        have hstep : langOptionsStep acc l = acc := by
          simp [langOptionsStep, hl.1, hl.2]
        simp only [List.foldl_cons, hstep]
        exact ih acc (fun x hx => hall x (List.mem_cons_of_mem l hx))
    exact key (pySplit text "\n") ("en", text) h

/-- Witness for C5: the commutation conjunct at two concrete label lines
and the no-label conjunct at a concrete unlabeled input. -/
theorem C5_witness :
    langOptionsStep (langOptionsStep ("en", "x") "LANG: ta") "OPTIONS: Which one?"
      = langOptionsStep (langOptionsStep ("en", "x") "OPTIONS: Which one?") "LANG: ta"
    ∧ parse_lang_and_options "hello there" = ("en", "hello there") :=
  ⟨C5_parse_lang_and_options.2.2.1 "LANG: ta" "OPTIONS: Which one?" ("en", "x")
      (by decide) (by decide) (by decide) (by decide),
   C5_parse_lang_and_options.2.2.2 "hello there" (by decide)⟩

/-- C7: any language code absent from `VOICE_MAP` resolves to the default
voice `"en-IN-NeerjaNeural"` both in `speak` and in the batch TTS path of
`process_ingredients_batch` (the lookup is a total function — it cannot
raise). -/
theorem C7_unknown_voice_defaults :
    ∀ code, code ∉ VOICE_MAP.map Prod.fst →
      speak_voice code = "en-IN-NeerjaNeural"
      ∧ batch_voice code = "en-IN-NeerjaNeural" := by
  intro code h
  constructor
  · unfold speak_voice; rw [lookup_eq_none_of_not_mem h]; rfl
  · unfold batch_voice; rw [lookup_eq_none_of_not_mem h]; rfl

/-- Witness for C7: the unknown code `"fr"` resolves to the default voice
on both paths. -/
theorem C7_witness :
    speak_voice "fr" = "en-IN-NeerjaNeural"
    ∧ batch_voice "fr" = "en-IN-NeerjaNeural" :=
  C7_unknown_voice_defaults "fr" (by decide)

/-- C2: `get_user_step_command` always returns one of `"NEXT"`,
`"REPEAT"`, `"STOP"`; an upload failure, a model-call failure, or a
model output containing neither indication all yield `"NEXT"`; the
output `"repeat please"` yields `"REPEAT"` and `"stop"` yields
`"STOP"`. -/
theorem C2_step_command_classifier :
    (∀ u m, get_user_step_command u m = "NEXT"
      ∨ get_user_step_command u m = "REPEAT"
      ∨ get_user_step_command u m = "STOP")
    ∧ (∀ e m, get_user_step_command (.error e) m = "NEXT")
    ∧ (∀ e, get_user_step_command (.ok ()) (.error e) = "NEXT")
    ∧ (∀ t, pyContains (pyUpper (pyStrip t)) "REPEAT" = false →
        pyContains (pyUpper (pyStrip t)) "STOP" = false →
        get_user_step_command (.ok ()) (.ok t) = "NEXT")
    ∧ get_user_step_command (.ok ()) (.ok "repeat please") = "REPEAT"
    ∧ get_user_step_command (.ok ()) (.ok "stop") = "STOP" := by
  refine ⟨?_, fun e m => rfl, fun e => rfl, ?_, by decide, by decide⟩
  · intro u m
    cases u with
    | error e => exact Or.inl rfl
    | ok _ =>
      cases m with
      | error e => exact Or.inl rfl
      | ok t =>
        unfold get_user_step_command
        by_cases h1 : pyContains (pyUpper (pyStrip t)) "REPEAT" = true
        · simp [h1]
        · by_cases h2 : pyContains (pyUpper (pyStrip t)) "STOP" = true
          · simp [h1, h2]
          · simp [h1, h2]
  · intro t h1 h2
    unfold get_user_step_command
    simp [h1, h2]

/-- Witness for C2: the ambiguous output `"yes go on"` contains neither
indication and is classified `"NEXT"`. -/
theorem C2_witness :
    get_user_step_command (.ok ()) (.ok "yes go on") = "NEXT" :=
  C2_step_command_classifier.2.2.2.1 "yes go on" (by decide) (by decide)

/-- C10: classification is by substring match on the stripped upper-cased
model output with `"REPEAT"` tested before `"STOP"`: an output containing
both substrings is classified `"REPEAT"`. -/
theorem C10_repeat_tested_before_stop :
    ∀ t, pyContains (pyUpper (pyStrip t)) "REPEAT" = true →
      pyContains (pyUpper (pyStrip t)) "STOP" = true →
      get_user_step_command (.ok ()) (.ok t) = "REPEAT" := by
  intro t h1 _
  unfold get_user_step_command
  simp [h1]

/-- Witness for C10: the output `"REPEAT STOP"` contains both substrings
and is classified `"REPEAT"`. -/
theorem C10_witness :
    get_user_step_command (.ok ()) (.ok "REPEAT STOP") = "REPEAT" :=
  C10_repeat_tested_before_stop "REPEAT STOP" (by decide) (by decide)

/-- The loop body on `"REPEAT"` leaves the index unchanged. -/
theorem loopBody_repeat (idx : Nat) : loopBody idx "REPEAT" = some idx := by
  unfold loopBody
  rw [if_neg (by decide), if_pos rfl]

/-- The loop body on `"NEXT"` increments the index by exactly one. -/
theorem loopBody_next (idx : Nat) : loopBody idx "NEXT" = some (idx + 1) := by
  unfold loopBody
  rw [if_pos rfl]

/-- The loop body on `"STOP"` breaks the loop. -/
theorem loopBody_stop (idx : Nat) : loopBody idx "STOP" = none := by
  unfold loopBody
  rw [if_neg (by decide), if_neg (by decide), if_pos rfl]

/-- Every index emitted by the step loop is below the number of steps. -/
theorem runLoop_mem_lt (steps : List String) :
    ∀ (cmds : List String) (idx : Nat) (p : Nat × String),
      p ∈ runLoop steps idx cmds → p.1 < steps.length := by
  intro cmds
  induction cmds with
  | nil =>
    intro idx p hp
    unfold runLoop at hp
    by_cases h : idx < steps.length
    · rw [dif_pos h] at hp
      rcases List.mem_singleton.mp hp with rfl
      exact h
    · rw [dif_neg h] at hp
      exact absurd hp (List.not_mem_nil p)
  | cons c rest ih =>
    intro idx p hp
    unfold runLoop at hp
    by_cases h : idx < steps.length
    · rw [dif_pos h] at hp
      rcases List.mem_cons.mp hp with rfl | hp2
      · exact h
      · cases hle : loopBody idx c with
        | some idx2 => rw [hle] at hp2; exact ih idx2 p hp2
        | none => rw [hle] at hp2; exact absurd hp2 (List.not_mem_nil p)
    · rw [dif_neg h] at hp
      exact absurd hp (List.not_mem_nil p)

/-- C1: in the interactive step loop every emitted step index is in
`[0, len(steps))`; a `"REPEAT"` command leaves the index unchanged and
the same step text is emitted again on the next iteration; `"NEXT"`
increments the index by exactly one; `"STOP"` ends the loop right after
the current step; and at index `len(steps)` the loop does not run. -/
theorem C1_step_loop_invariant :
    (∀ steps idx cmds (p : Nat × String),
        p ∈ runLoop steps idx cmds → p.1 < steps.length)
    ∧ (∀ steps idx cmds (h : idx < List.length steps),
        runLoop steps idx ("REPEAT" :: cmds)
          = (idx, steps[idx]) :: runLoop steps idx cmds)
    ∧ (∀ idx, loopBody idx "NEXT" = some (idx + 1))
    ∧ (∀ steps idx cmds (h : idx < List.length steps),
        runLoop steps idx ("STOP" :: cmds) = [(idx, steps[idx])])
    ∧ (∀ steps cmds, runLoop steps steps.length cmds = []) := by
  refine ⟨fun steps idx cmds p => runLoop_mem_lt steps cmds idx p,
    ?_, loopBody_next, ?_, ?_⟩
  · intro steps idx cmds h
    conv_lhs => rw [runLoop]
    rw [dif_pos h, loopBody_repeat]
  · intro steps idx cmds h
    unfold runLoop
    rw [dif_pos h, loopBody_stop]
  · intro steps cmds
    cases cmds with
    | nil => unfold runLoop; rw [dif_neg (lt_irrefl _)]
    | cons c rest => unfold runLoop; rw [dif_neg (lt_irrefl _)]

/-- Witness for C1: a concrete run over two steps — membership in a
concrete trace is in range, `"REPEAT"` at step 0 re-emits step 0 and
keeps the index, and `"STOP"` at step 1 ends the loop with only step 1
emitted. -/
theorem C1_witness :
    0 < 2
    ∧ runLoop ["chop", "boil"] 0 ["REPEAT"]
        = (0, "chop") :: runLoop ["chop", "boil"] 0 []
    ∧ runLoop ["chop", "boil"] 1 ["STOP", "NEXT"] = [(1, "boil")]
    ∧ runLoop ["chop", "boil"] 2 ["NEXT"] = [] :=
  ⟨C1_step_loop_invariant.1 ["chop", "boil"] 0 ["REPEAT"] (0, "chop") (by decide),
    C1_step_loop_invariant.2.1 ["chop", "boil"] 0 [] (by decide),
    C1_step_loop_invariant.2.2.2.1 ["chop", "boil"] 1 ["NEXT"] (by decide),
    C1_step_loop_invariant.2.2.2.2 ["chop", "boil"] ["NEXT"]⟩

/-- C6: when `parse_steps` yields no steps, the driver tail exits early
with the explanatory message and never enters the interactive mode. -/
theorem C6_zero_steps_early_exit :
    ∀ steps_text cmds, parse_steps steps_text = [] →
      main_after_steps steps_text cmds
        = .earlyExit "Could not parse steps. Using full recipe only." := by
  intro st cmds h
  unfold main_after_steps
  rw [h]
  rfl

/-- Witness for C6: a steps text with no `STEP` lines parses to zero
steps and exits early. -/
theorem C6_witness :
    main_after_steps "no steps in this text" ["NEXT"]
      = .earlyExit "Could not parse steps. Using full recipe only." :=
  C6_zero_steps_early_exit "no steps in this text" ["NEXT"] (by decide)

/-- The quota-exhaustion message and the generic-failure message of
`process_ingredients_batch` differ for every pair of exception texts
(their fixed prefixes already disagree at character index 7). -/
theorem quota_msg_ne_generic_msg (e e' : String) :
    ("Gemini quota exhausted: " ++ e : String)
      ≠ ("Gemini generation failed: " ++ e' : String) := by
  intro h
  have hd := congrArg String.data h
  rw [String.data_append, String.data_append] at hd
  have h7 := congrArg (fun l => l[7]?) hd
  simp only [List.getElem?_append] at h7
  rw [if_pos (by decide), if_pos (by decide)] at h7
  exact absurd h7 (by decide)

/-- C8: a `ResourceExhausted` model failure makes
`process_ingredients_batch` return `success = False` with the
quota-specific error message; any other model failure returns
`success = False` with the generic message; the two messages are
distinct for all exception texts; and in both cases the model is called
exactly once (no retry). -/
theorem C8_quota_distinct_no_retry :
    (∀ path e tts fn,
      process_ingredients_batch path true (.ok ()) (.resourceExhausted e) tts fn
        = ({ batchInit with error := some ("Gemini quota exhausted: " ++ e) }, 1))
    ∧ (∀ path e tts fn,
      process_ingredients_batch path true (.ok ()) (.genError e) tts fn
        = ({ batchInit with error := some ("Gemini generation failed: " ++ e) }, 1))
    ∧ (∀ e e', ("Gemini quota exhausted: " ++ e : String)
        ≠ ("Gemini generation failed: " ++ e' : String))
    ∧ (∀ path e tts fn,
      (process_ingredients_batch path true (.ok ()) (.resourceExhausted e) tts fn).1.success
        = false) := by
  exact ⟨fun path e tts fn => rfl, fun path e tts fn => rfl,
    quota_msg_ne_generic_msg, fun path e tts fn => rfl⟩

/-- Witness for C8 (the distinctness conjunct is a universally quantified
disequality; instantiated here at concrete exception texts, together with
the concrete quota run). -/
theorem C8_witness :
    process_ingredients_batch "ingredients.wav" true (.ok ())
        (.resourceExhausted "429 rate limit") (.ok ()) "f.mp3"
      = ({ batchInit with
            error := some "Gemini quota exhausted: 429 rate limit" }, 1)
    ∧ ("Gemini quota exhausted: 429 rate limit" : String)
        ≠ ("Gemini generation failed: 429 rate limit" : String) :=
  ⟨C8_quota_distinct_no_retry.1 "ingredients.wav" "429 rate limit" (.ok ()) "f.mp3",
   C8_quota_distinct_no_retry.2.2.1 "429 rate limit" "429 rate limit"⟩

/-- C9: when the model call succeeds but TTS synthesis of the AI question
fails, `process_ingredients_batch` still succeeds: the exception text is
recorded in `tts_error`, no filename is appended to `tts_files`, and
`success`, `lang_code` and `ai_question` are intact. -/
theorem C9_tts_failure_not_fatal :
    ∀ path text e fn,
      (parse_lang_and_options (pyStrip (text.getD ""))).2 ≠ "" →
      process_ingredients_batch path true (.ok ()) (.ok text) (.error e) fn
        = ({ batchInit with
              success := true,
              response_text := pyStrip (text.getD ""),
              lang_code := (parse_lang_and_options (pyStrip (text.getD ""))).1,
              ai_question := (parse_lang_and_options (pyStrip (text.getD ""))).2,
              tts_error := some e }, 1) := by
  intro path text e fn h
  unfold process_ingredients_batch
  simp only [Bool.not_true, Bool.false_eq_true, if_false, if_pos h]

/-- Witness for C9: a concrete model reply whose parsed question is
nonempty, with a TTS failure `"edge-tts down"`. -/
theorem C9_witness :
    process_ingredients_batch "ingredients.wav" true (.ok ())
        (.ok (some "LANG: hi\nOPTIONS: Paneer or Dal?")) (.error "edge-tts down")
        "f.mp3"
      = ({ batchInit with
            success := true,
            response_text := "LANG: hi\nOPTIONS: Paneer or Dal?",
            lang_code := "hi",
            ai_question := "Paneer or Dal?",
            tts_error := some "edge-tts down" }, 1) :=
  C9_tts_failure_not_fatal "ingredients.wav"
    (some "LANG: hi\nOPTIONS: Paneer or Dal?") "edge-tts down" "f.mp3" (by decide)

/-- C3: the response-parse cascade is total and deterministic.  The
`analyze` cascade never produces the raised outcome for any JSON-decoder
behaviour, regex behaviour and raw text; when the strict decode of the
cleaned text fails it returns the regex fallback structure; `extract_json`
returns the marked `None` (never raises) when the decoder rejects its
candidate substring; and both parses are functions of their input (two
parses of the same input agree). -/
theorem C3_parser_total_deterministic :
    (∀ (J : Type) (loads : String → Option J) (o : RegexOracle)
        (raw msg : String), analyze_parse loads o raw ≠ .raised msg)
    ∧ (∀ (J : Type) (loads : String → Option J) (o : RegexOracle)
        (raw : String), loads (clean_json_response raw) = none →
        analyze_parse loads o raw = .fallback (parse_text_to_json o raw))
    ∧ (∀ (J : Type) (loads : String → Option J) (t : String),
        (∀ s, loads s = none) → extract_json loads t = none)
    ∧ (∀ (J : Type) (loads : String → Option J) (t1 t2 : String),
        t1 = t2 → extract_json loads t1 = extract_json loads t2) := by
  refine ⟨?_, ?_, ?_, ?_⟩
  · intro J loads o raw msg
    unfold analyze_parse
    cases loads (clean_json_response raw) with
    | some j => simp
    | none => simp
  · intro J loads o raw h
    unfold analyze_parse
    rw [h]
  · intro J loads t h
    simp only [extract_json]
    split
    · exact h _
    · rfl
  · intro J loads t1 t2 h
    rw [h]

/-- Witness for C3: the always-failing decoder on concrete inputs — the
cascade returns the fallback structure on `"plain text"` and
`extract_json` returns `None` on `"{}"`. -/
theorem C3_witness :
    analyze_parse (fun _ => (none : Option String)) emptyRegexOracle "plain text"
      = .fallback (parse_text_to_json emptyRegexOracle "plain text")
    ∧ extract_json (fun _ => (none : Option String)) "{}" = none :=
  ⟨C3_parser_total_deterministic.2.1 String (fun _ => none) emptyRegexOracle
      "plain text" rfl,
   C3_parser_total_deterministic.2.2.1 String (fun _ => none) "{}"
      (fun _ => rfl)⟩

/-- Counterexample to C4 as stated: the image-synthesis operation of
`recipe_generator.py` issues its single outbound request with NO bounded
timeout — at the concrete prompt below the trace consists of one request
whose `timeout` is `none`. -/
theorem C4_counterexample :
    recipe_generate_image_requests id
        "delicious biryani, professional food photography, 4k"
      = [⟨"https://image.pollinations.ai/prompt/delicious biryani, professional food photography, 4k",
          none⟩]
    ∧ ¬ (∀ r ∈ recipe_generate_image_requests id
          "delicious biryani, professional food photography, 4k",
          r.timeout.isSome = true) := by
  constructor
  · rfl
  · intro h
    have := h ⟨"https://image.pollinations.ai/prompt/delicious biryani, professional food photography, 4k",
      none⟩ (by rw [recipe_generate_image_requests]; exact List.mem_singleton.mpr rfl)
    simp at this

/-- C4 amended: each of the three `generate_image` operations performs a
single outbound HTTP request; the ones in `buffer.py` and `rohan.py`
carry the bounded timeout 10 while the one in `recipe_generator.py`
carries no timeout; and across all `requests` call sites of the
repository, a timeout is only ever attached to an image fetch or to a
local (Ollama) call. -/
theorem C4_amended_single_request_timeouts :
    (∀ quote prompt,
      (recipe_generate_image_requests quote prompt).length = 1
      ∧ ∀ r ∈ recipe_generate_image_requests quote prompt, r.timeout = none)
    ∧ (∀ prompt, (buffer_generate_image_requests prompt).length = 1
      ∧ ∀ r ∈ buffer_generate_image_requests prompt, r.timeout = some 10)
    ∧ (∀ prompt, (rohan_generate_image_requests prompt).length = 1
      ∧ ∀ r ∈ rohan_generate_image_requests prompt, r.timeout = some 10)
    ∧ (∀ s ∈ requestSites, s.timeout.isSome = true →
        s.isImageFetch = true ∨ s.isLocal = true) := by
  refine ⟨?_, ?_, ?_, ?_⟩
  · intro quote prompt
    refine ⟨rfl, ?_⟩
    intro r hr
    rcases List.mem_singleton.mp hr with rfl
    rfl
  · intro prompt
    refine ⟨rfl, ?_⟩
    intro r hr
    rcases List.mem_singleton.mp hr with rfl
    rfl
  · intro prompt
    refine ⟨rfl, ?_⟩
    intro r hr
    rcases List.mem_singleton.mp hr with rfl
    rfl
  · decide

/-- Witness for C4 amended: the concrete traces at a concrete prompt and
the timeout discipline at the `buffer.py` call site. -/
theorem C4_amended_witness :
    (recipe_generate_image_requests id "dal").length = 1
    ∧ (⟨"https://image.pollinations.ai/prompt/dal", none⟩ : HttpRequest).timeout
        = none
    ∧ (⟨"https://image.pollinations.ai/prompt/dal", some 10⟩ : HttpRequest).timeout
        = some 10
    ∧ ((⟨"buffer.py", "generate_image", false, true, some 10⟩ : RequestSite).isImageFetch
        = true
      ∨ (⟨"buffer.py", "generate_image", false, true, some 10⟩ : RequestSite).isLocal
        = true) :=
  ⟨(C4_amended_single_request_timeouts.1 id "dal").1,
   (C4_amended_single_request_timeouts.1 id "dal").2
     ⟨"https://image.pollinations.ai/prompt/dal", none⟩ (by decide),
   (C4_amended_single_request_timeouts.2.1 "dal").2
     ⟨"https://image.pollinations.ai/prompt/dal", some 10⟩ (by decide),
   C4_amended_single_request_timeouts.2.2.2
     ⟨"buffer.py", "generate_image", false, true, some 10⟩ (by decide) rfl⟩

end SmartChef
